import Mathlib

/-
Verification of the purchase-price derivation engine (price_calculator.py).

The engine is embedded shallowly:
  * JSON-like snapshot values are modelled by `JVal` (numbers, null, nested
    objects); numeric values are exact rationals (ℚ), idealising Python
    floats as exact arithmetic.
  * Python dictionaries are association lists (`List (String × JVal)`) with
    `List.lookup` playing the role of `dict.get`.
  * Operations that can raise a Python `TypeError` (multiplying the CNY/NGN
    override by a non-number, calling `float` on an object) are modelled in
    the `Except PyErr` monad; a raised exception is `Except.error`.
  * Module-level constants keep their source names and values.
-/

namespace KursiPrices

/-- A JSON-like value as it appears in a price snapshot: a number, a null,
or a nested object (association list of fields).  Strings and arrays do not
occur in the snapshots the claims are about and are omitted. -/
inductive JVal where
  | num (q : ℚ)
  | null
  | dict (fields : List (String × JVal))

/-- The only Python exception the modelled code paths can raise. -/
inductive PyErr where
  | typeError
deriving DecidableEq

instance {α β : Type} [DecidableEq α] [DecidableEq β] : DecidableEq (Except α β) :=
  fun x y =>
  match x, y with
  | Except.error a, Except.error b =>
      decidable_of_iff (a = b) (by simp)
  | Except.error _, Except.ok _ => isFalse (fun h => Except.noConfusion h)
  | Except.ok _, Except.error _ => isFalse (fun h => Except.noConfusion h)
  | Except.ok a, Except.ok b =>
      decidable_of_iff (a = b) (by simp)

-- ==================== module-level constants (source lines 13-40) =========

/-- `VAT_RATE = 1.13` -/
def VAT_RATE : ℚ := 113 / 100

/-- `CNY_NGN_OVERRIDE = 216` (a manual override; `none` would mean "use the
snapshot value"). -/
def CNY_NGN_OVERRIDE : Option ℚ := some 216

/-- `LOGISTICS_COST_SEA = 80309` (NGN per tonne). -/
def LOGISTICS_COST_SEA : ℚ := 80309

/-- `COLTAN_AIR_COST = 8` (USD per kg). -/
def COLTAN_AIR_COST : ℚ := 8

/-- `SPODUMENE_DISCOUNT = 0.6` -/
def SPODUMENE_DISCOUNT : ℚ := 6 / 10

/-- `LEPIDOLITE_DISCOUNT = 0.3` -/
def LEPIDOLITE_DISCOUNT : ℚ := 3 / 10

/-- `LEPIDOLITE_TONS_PER_CARBONATE = 20` -/
def LEPIDOLITE_TONS_PER_CARBONATE : ℚ := 20

/-- `LEPIDOLITE_PROCESSING_COST_CNY = 45000` -/
def LEPIDOLITE_PROCESSING_COST_CNY : ℚ := 45000

/-- `LEPIDOLITE_BASE_GRADE = 2.5` -/
def LEPIDOLITE_BASE_GRADE : ℚ := 5 / 2

-- ==================== snapshot and resolved rates ========================

/-- The input snapshot: the `exchange_rates` and `smm_prices` mappings of the
JSON document (absent mappings behave like the empty list, exactly as
`price_data.get(..., {})` does). -/
structure Snapshot where
  exchange_rates : List (String × JVal)
  smm_prices : List (String × JVal)

/-- The three FX attributes stored on the calculator after `__init__`
succeeds (source lines 64-76).  After a successful construction they are
genuine numbers. -/
structure Resolved where
  USD_NGN : ℚ
  USD_CNY : ℚ
  CNY_NGN : ℚ
deriving DecidableEq

/-- Python truthiness of a snapshot value (`0` and `None` and the empty
object are falsy). -/
def truthy : JVal → Bool
  | JVal.num q => q != 0
  | JVal.null => false
  | JVal.dict fields => !fields.isEmpty

/-- `entry.get("rate", default) if isinstance(entry, dict) else entry`,
with an absent entry standing for the `{}` default of
`exchange_rates.get(name, {})` (source lines 60-65). -/
def resolveRaw (entry : Option JVal) (default : ℚ) : JVal :=
  match entry with
  | none => JVal.num default
  | some (JVal.dict fields) => (fields.lookup "rate").getD (JVal.num default)
  | some v => v

/-- `PriceCalculator.__init__` restricted to its FX-resolution part (source
lines 56-76).  With `CNY_NGN_OVERRIDE` set, `CNY_NGN` is the override and
`USD_NGN` is always recomputed as `CNY_NGN * USD_CNY`; the multiplication
raises `TypeError` when `USD_CNY` resolved to a non-number (as `216 * None`
does in Python). -/
def initCalc (exchange_rates : List (String × JVal)) : Except PyErr Resolved :=
  let usd_cny := resolveRaw (exchange_rates.lookup "usd_cny") 7
  let cny_ngn : JVal :=
    match CNY_NGN_OVERRIDE with
    | some v => JVal.num v
    | none => resolveRaw (exchange_rates.lookup "cny_ngn") (4247 / 20)
  match cny_ngn, usd_cny with
  | JVal.num a, JVal.num b => Except.ok ⟨a * b, b, a⟩
  | _, _ => Except.error PyErr.typeError

-- ==================== price lookup (_get_price) ==========================

/-- One key's attempt inside `_get_price` (source lines 91-95 and 100-104):
`data = smm.get(key, {})`; when `data` is a mapping, evaluate
`price = data.get(field) or data.get("price")`; `Except.ok none` means
"fall through to the next key", `Except.ok (some r)` means "the function
returns `r` now" (`r = none` is Python `None`), and `Except.error` models
`float(price)` raising `TypeError` on a non-numeric truthy value. -/
def attemptKey (smm : List (String × JVal)) (key field : String) :
    Except PyErr (Option (Option ℚ)) :=
  match (smm.lookup key).getD (JVal.dict []) with
  | JVal.dict fields =>
      let a := (fields.lookup field).getD JVal.null
      let b := (fields.lookup "price").getD JVal.null
      let price := if truthy a then a else b
      match price with
      | JVal.null => Except.ok none
      | JVal.num q => Except.ok (some (if q = 0 then none else some q))
      | JVal.dict _ => Except.error PyErr.typeError
  | _ => Except.ok none

/-- Iterate `attemptKey` over a list of keys, stopping at the first key
whose attempt returns. -/
def getPriceKeys (smm : List (String × JVal)) (field : String) :
    List String → Except PyErr (Option ℚ)
  | [] => Except.ok none
  | k :: ks =>
    match attemptKey smm k field with
    | Except.error e => Except.error e
    | Except.ok (some r) => Except.ok r
    | Except.ok none => getPriceKeys smm field ks

/-- `PriceCalculator._get_price(key, field, fallback_keys)` (source lines
81-109): the primary key is tried first, then the fallback keys in order;
the diagnostic printing on a total miss has no effect on the value and is
not modelled. -/
def getPrice (smm : List (String × JVal)) (key field : String)
    (fallback_keys : List String) : Except PyErr (Option ℚ) :=
  getPriceKeys smm field (key :: fallback_keys)

-- ==================== commodity strategies ===============================

/-- `PriceCalculator.calc_tin_ore` (source lines 113-138).  The guard
`if not metal_price_usd` treats both `None` and `0.0` as missing. -/
def calc_tin_ore (self : Resolved) (smm : List (String × JVal))
    (grade_percent : ℚ) : Except PyErr ℚ :=
  match getPrice smm "tin" "price_avg" [] with
  | Except.error e => Except.error e
  | Except.ok none => Except.ok 0
  | Except.ok (some metal_price_usd) =>
    if metal_price_usd = 0 then Except.ok 0
    else
      let china_price_usd := metal_price_usd * (grade_percent / 100)
      let china_price_ngn := china_price_usd * self.USD_NGN
      let fob_price_ngn := china_price_ngn - LOGISTICS_COST_SEA
      let max_price_ngn_per_ton := fob_price_ngn / VAT_RATE
      Except.ok (max_price_ngn_per_ton / 1000)

/-- `PriceCalculator.calc_coltan` (source lines 140-158). -/
def calc_coltan (self : Resolved) (smm : List (String × JVal))
    (grade_percent : ℚ) : Except PyErr ℚ :=
  match getPrice smm "tantalum_oxide" "price_avg" [] with
  | Except.error e => Except.error e
  | Except.ok none => Except.ok 0
  | Except.ok (some ta2o5_price_usd_kg) =>
    if ta2o5_price_usd_kg = 0 then Except.ok 0
    else
      let unit_price_per_grade :=
        ((ta2o5_price_usd_kg - COLTAN_AIR_COST) / VAT_RATE / 100) * self.USD_NGN
      Except.ok (grade_percent * unit_price_per_grade)

/-- `PriceCalculator.calc_monazite` (source lines 160-198): base grade 60,
with the pre-VAT FOB value clamped to the sentinel `0` when it is ≤ 0. -/
def calc_monazite (self : Resolved) (smm : List (String × JVal))
    (grade_percent : ℚ) : Except PyErr ℚ :=
  match getPrice smm "monazite_concentrate" "price_avg"
      ["monazite", "monazite_concentrate"] with
  | Except.error e => Except.error e
  | Except.ok none => Except.ok 0
  | Except.ok (some smm_price_usd_ton) =>
    if smm_price_usd_ton = 0 then Except.ok 0
    else
      let china_price_ngn := smm_price_usd_ton * self.USD_NGN * (grade_percent / 60)
      let fob_price_ngn := china_price_ngn - LOGISTICS_COST_SEA
      if fob_price_ngn ≤ 0 then Except.ok 0
      else
        let max_price_ngn_per_ton := fob_price_ngn / VAT_RATE
        Except.ok (max_price_ngn_per_ton / 1000)

/-- `PriceCalculator.calc_titanium` (source lines 200-218): priced in
CNY/mt, converted with `CNY_NGN`; no grade parameter. -/
def calc_titanium (self : Resolved) (smm : List (String × JVal)) :
    Except PyErr ℚ :=
  match getPrice smm "titanium_concentrate" "price_avg" [] with
  | Except.error e => Except.error e
  | Except.ok none => Except.ok 0
  | Except.ok (some smm_price_cny_ton) =>
    if smm_price_cny_ton = 0 then Except.ok 0
    else
      let china_price_ngn := smm_price_cny_ton * self.CNY_NGN
      let fob_price_ngn := china_price_ngn - LOGISTICS_COST_SEA
      Except.ok (fob_price_ngn / VAT_RATE)

/-- `PriceCalculator.calc_zircon` (source lines 220-238). -/
def calc_zircon (self : Resolved) (smm : List (String × JVal)) :
    Except PyErr ℚ :=
  match getPrice smm "zircon_sand" "price_avg" [] with
  | Except.error e => Except.error e
  | Except.ok none => Except.ok 0
  | Except.ok (some smm_price_usd_ton) =>
    if smm_price_usd_ton = 0 then Except.ok 0
    else
      let china_price_ngn := smm_price_usd_ton * self.USD_NGN
      let fob_price_ngn := china_price_ngn - LOGISTICS_COST_SEA
      Except.ok (fob_price_ngn / VAT_RATE)

/-- `PriceCalculator.calc_spodumene` (source lines 240-266): base grade 6,
discounted by `SPODUMENE_DISCOUNT` after VAT division; no negative clamp. -/
def calc_spodumene (self : Resolved) (smm : List (String × JVal))
    (grade_percent : ℚ) : Except PyErr ℚ :=
  match getPrice smm "spodumene" "price_avg" [] with
  | Except.error e => Except.error e
  | Except.ok none => Except.ok 0
  | Except.ok (some smm_price_usd_ton) =>
    if smm_price_usd_ton = 0 then Except.ok 0
    else
      let china_price_ngn := smm_price_usd_ton * self.USD_NGN * (grade_percent / 6)
      let fob_price_ngn := china_price_ngn - LOGISTICS_COST_SEA
      let max_price_ngn_per_ton := fob_price_ngn / VAT_RATE
      Except.ok (max_price_ngn_per_ton * SPODUMENE_DISCOUNT)

/-- `PriceCalculator.calc_lepidolite` (source lines 268-301): derived from
the lithium-carbonate reference price. -/
def calc_lepidolite (self : Resolved) (smm : List (String × JVal))
    (grade_percent : ℚ) : Except PyErr ℚ :=
  match getPrice smm "lithium_carbonate" "price_avg" [] with
  | Except.error e => Except.error e
  | Except.ok none => Except.ok 0
  | Except.ok (some carbonate_price_usd) =>
    if carbonate_price_usd = 0 then Except.ok 0
    else
      let carbonate_price_cny := carbonate_price_usd * self.USD_CNY
      let lepidolite_price_cny :=
        (carbonate_price_cny - LEPIDOLITE_PROCESSING_COST_CNY) /
          LEPIDOLITE_TONS_PER_CARBONATE *
          (grade_percent / LEPIDOLITE_BASE_GRADE)
      let china_price_ngn := lepidolite_price_cny * self.CNY_NGN
      let fob_price_ngn := china_price_ngn - LOGISTICS_COST_SEA
      let max_price_ngn_per_ton := fob_price_ngn / VAT_RATE
      Except.ok (max_price_ngn_per_ton * LEPIDOLITE_DISCOUNT)

/-- `PriceCalculator.calc_lead_ore` (source lines 303-325). -/
def calc_lead_ore (self : Resolved) (smm : List (String × JVal))
    (grade_percent : ℚ) : Except PyErr ℚ :=
  match getPrice smm "lead" "price_avg" [] with
  | Except.error e => Except.error e
  | Except.ok none => Except.ok 0
  | Except.ok (some metal_price_usd) =>
    if metal_price_usd = 0 then Except.ok 0
    else
      let china_price_usd := metal_price_usd * (grade_percent / 100)
      let china_price_ngn := china_price_usd * self.USD_NGN
      let fob_price_ngn := china_price_ngn - LOGISTICS_COST_SEA
      Except.ok (fob_price_ngn / VAT_RATE)

/-- `PriceCalculator.calc_zinc_ore` (source lines 327-349). -/
def calc_zinc_ore (self : Resolved) (smm : List (String × JVal))
    (grade_percent : ℚ) : Except PyErr ℚ :=
  match getPrice smm "zinc" "price_avg" [] with
  | Except.error e => Except.error e
  | Except.ok none => Except.ok 0
  | Except.ok (some metal_price_usd) =>
    if metal_price_usd = 0 then Except.ok 0
    else
      let china_price_usd := metal_price_usd * (grade_percent / 100)
      let china_price_ngn := china_price_usd * self.USD_NGN
      let fob_price_ngn := china_price_ngn - LOGISTICS_COST_SEA
      Except.ok (fob_price_ngn / VAT_RATE)

-- ==================== rounding to whole units ============================

/-- Python's `round(q, 0)` (banker's rounding: ties go to the even
integer), returning the integer value. -/
def pyRound0 (q : ℚ) : ℤ :=
  let f := ⌊q⌋
  let frac := q - (f : ℚ)
  if frac < 1 / 2 then f
  else if 1 / 2 < frac then f + 1
  else if f % 2 = 0 then f else f + 1

-- ==================== aggregator (calculate_all) =========================

/-- Per-commodity block of the result table: unit label, base-grade label,
and the map from grade label to rounded price. -/
structure CommodityResult where
  unit : String
  base_grade : String
  grades : List (String × ℤ)

/-- The result table assembled by `calculate_all` (source lines 353-495);
the `date`/`calculation_time` strings and the static `parameters` block are
copies of constants and are not modelled. -/
structure ResultTable where
  usd_ngn : ℚ
  usd_cny : ℚ
  cny_ngn : ℚ
  source_prices : List (String × Option ℚ)
  max_purchase_prices : List (String × CommodityResult)

/-- `PriceCalculator(price_data).calculate_all()` (source lines 46-79 and
353-495): FX resolution, the nine source-price lookups, then every
commodity at its configured grade labels, each price rounded with
`round(x, 0)`.  Any `TypeError` raised along the way escapes. -/
def calculate_all (s : Snapshot) : Except PyErr ResultTable := do
  let self ← initCalc s.exchange_rates
  let smm := s.smm_prices
  let tin_src ← getPrice smm "tin" "price_avg" []
  let ta_src ← getPrice smm "tantalum_oxide" "price_avg" []
  let mon_src ← getPrice smm "monazite_concentrate" "price_avg" []
  let ti_src ← getPrice smm "titanium_concentrate" "price_avg" []
  let zr_src ← getPrice smm "zircon_sand" "price_avg" []
  let sp_src ← getPrice smm "spodumene" "price_avg" []
  let lc_src ← getPrice smm "lithium_carbonate" "price_avg" []
  let pb_src ← getPrice smm "lead" "price_avg" []
  let zn_src ← getPrice smm "zinc" "price_avg" []
  let tin60 ← calc_tin_ore self smm 60
  let tin65 ← calc_tin_ore self smm 65
  let tin70 ← calc_tin_ore self smm 70
  let tin75 ← calc_tin_ore self smm 75
  let col20 ← calc_coltan self smm 20
  let col25 ← calc_coltan self smm 25
  let col30 ← calc_coltan self smm 30
  let col35 ← calc_coltan self smm 35
  let mon30 ← calc_monazite self smm 30
  let mon40 ← calc_monazite self smm 40
  let mon45 ← calc_monazite self smm 45
  let mon50 ← calc_monazite self smm 50
  let mon60 ← calc_monazite self smm 60
  let ti50 ← calc_titanium self smm
  let zr65 ← calc_zircon self smm
  let sp3 ← calc_spodumene self smm 3
  let sp4 ← calc_spodumene self smm 4
  let sp5 ← calc_spodumene self smm 5
  let sp6 ← calc_spodumene self smm 6
  let lep20 ← calc_lepidolite self smm 2
  let lep25 ← calc_lepidolite self smm (5 / 2)
  let lep30 ← calc_lepidolite self smm 3
  let pb40 ← calc_lead_ore self smm 40
  let pb50 ← calc_lead_ore self smm 50
  let pb60 ← calc_lead_ore self smm 60
  let zn40 ← calc_zinc_ore self smm 40
  let zn50 ← calc_zinc_ore self smm 50
  let zn60 ← calc_zinc_ore self smm 60
  Except.ok
    { usd_ngn := self.USD_NGN
      usd_cny := self.USD_CNY
      cny_ngn := self.CNY_NGN
      source_prices :=
        [("tin", tin_src), ("tantalum_oxide", ta_src), ("monazite", mon_src),
         ("titanium", ti_src), ("zircon", zr_src), ("spodumene", sp_src),
         ("lithium_carbonate", lc_src), ("lead", pb_src), ("zinc", zn_src)]
      max_purchase_prices :=
        [("tin_ore", ⟨"NGN/kg", "70%",
            [("60%", pyRound0 tin60), ("65%", pyRound0 tin65),
             ("70%", pyRound0 tin70), ("75%", pyRound0 tin75)]⟩),
         ("coltan", ⟨"NGN/kg", "30% Ta2O5",
            [("20%", pyRound0 col20), ("25%", pyRound0 col25),
             ("30%", pyRound0 col30), ("35%", pyRound0 col35)]⟩),
         ("monazite", ⟨"NGN/kg", "60% TREO",
            [("30%", pyRound0 mon30), ("40%", pyRound0 mon40),
             ("45%", pyRound0 mon45), ("50%", pyRound0 mon50),
             ("60%", pyRound0 mon60)]⟩),
         ("titanium", ⟨"NGN/ton", ">=50% TiO2",
            [("50%", pyRound0 ti50)]⟩),
         ("zircon", ⟨"NGN/ton", ">=65% Zr(Hf)O2",
            [("65%", pyRound0 zr65)]⟩),
         ("spodumene", ⟨"NGN/ton", "6% Li2O",
            [("3%", pyRound0 sp3), ("4%", pyRound0 sp4),
             ("5%", pyRound0 sp5), ("6%", pyRound0 sp6)]⟩),
         ("lepidolite", ⟨"NGN/ton", "2.5% Li2O",
            [("2.0%", pyRound0 lep20), ("2.5%", pyRound0 lep25),
             ("3.0%", pyRound0 lep30)]⟩),
         ("lead_ore", ⟨"NGN/ton", "50% Pb",
            [("40%", pyRound0 pb40), ("50%", pyRound0 pb50),
             ("60%", pyRound0 pb60)]⟩),
         ("zinc_ore", ⟨"NGN/ton", "50% Zn",
            [("40%", pyRound0 zn40), ("50%", pyRound0 zn50),
             ("60%", pyRound0 zn60)]⟩)] }

-- ==================== spec-side lookup functions =========================

/-- A value that is not a mapping (a number or a null). -/
def isLeaf : JVal → Bool
  | JVal.dict _ => false
  | _ => true

/-- A record usable without a `TypeError`: either not a mapping, or a
mapping whose field values are numbers or nulls. -/
def goodEntry : JVal → Bool
  | JVal.dict fields => fields.all (fun kv => isLeaf kv.2)
  | _ => true

/-- A snapshot price table whose records are `goodEntry`. -/
def goodSmm (smm : List (String × JVal)) : Bool :=
  smm.all (fun kv => goodEntry kv.2)

/-- The number stored under `f`, when the stored value is a number. -/
def storedNum (fields : List (String × JVal)) (f : String) : Option ℚ :=
  match fields.lookup f with
  | some (JVal.num q) => some q
  | _ => none

/-- One field attempt as the claim for `_get_price` words it: the value is
usable when it is a present, non-zero number; a stored 0 counts as absent. -/
def claimedFieldVal (fields : List (String × JVal)) (f : String) : Option ℚ :=
  match storedNum fields f with
  | some q => if q = 0 then none else some q
  | none => none

/-- One key attempt as the claim words it: try `field`, then the generic
`"price"` field; a key whose record is not a mapping yields nothing. -/
def claimedKeyVal (smm : List (String × JVal)) (key field : String) :
    Option ℚ :=
  match smm.lookup key with
  | some (JVal.dict fields) =>
      match claimedFieldVal fields field with
      | some q => some q
      | none => claimedFieldVal fields "price"
  | _ => none

def getPriceClaimedKeys (smm : List (String × JVal)) (field : String) :
    List String → Option ℚ
  | [] => none
  | k :: ks =>
    match claimedKeyVal smm k field with
    | some q => some q
    | none => getPriceClaimedKeys smm field ks

/-- `_get_price` exactly as claim C3 describes it (its "spec" version, to
be compared with the embedded `getPrice`): the first usable value obtained
by trying, for the primary key and then each fallback key in order, the
record's `field` and then its generic `"price"` field, a stored 0 counting
as absent; `none` when no candidate yields a usable value. -/
def getPriceClaimed (smm : List (String × JVal)) (key field : String)
    (fallback_keys : List String) : Option ℚ :=
  getPriceClaimedKeys smm field (key :: fallback_keys)

/-- Verdict of one key under the amended claim: `none` means "no candidate
here, move on to the next key"; `some (some q)` means "the first usable
(present, non-zero) value is `q`"; `some none` means "the candidate found
here was the stored number 0, whereupon the lookup stops and reports no
value without consulting any further fallback key". -/
def amendedVerdict (fields : List (String × JVal)) (field : String) :
    Option (Option ℚ) :=
  match storedNum fields field with
  | some q =>
      if q = 0 then
        match storedNum fields "price" with
        | some p => if p = 0 then some none else some (some p)
        | none => none
      else some (some q)
  | none =>
      match storedNum fields "price" with
      | some p => if p = 0 then some none else some (some p)
      | none => none

/-- Per-key step of the amended claim: keys whose record is not a mapping
are skipped. -/
def amendedSpecKey (smm : List (String × JVal)) (key field : String) :
    Option (Option ℚ) :=
  match (smm.lookup key).getD (JVal.dict []) with
  | JVal.dict fields => amendedVerdict fields field
  | _ => none

def getPriceAmendedKeys (smm : List (String × JVal)) (field : String) :
    List String → Option ℚ
  | [] => none
  | k :: ks =>
    match amendedSpecKey smm k field with
    | some r => r
    | none => getPriceAmendedKeys smm field ks

/-- `_get_price` as amended claim C3 describes it: like `getPriceClaimed`,
except that when the candidate value a key's two-field attempt produces is
the stored number 0, the search stops immediately with no value instead of
moving on to the remaining fallback keys. -/
def getPriceAmendedSpec (smm : List (String × JVal)) (key field : String)
    (fallback_keys : List String) : Option ℚ :=
  getPriceAmendedKeys smm field (key :: fallback_keys)

-- ==================== wellformed exchange-rate entries ===================

/-- An exchange-rate entry that resolves to a number: a bare number, or a
mapping whose `rate` field (when present) is a number. -/
def goodRateEntry : JVal → Bool
  | JVal.num _ => true
  | JVal.null => false
  | JVal.dict fields =>
    match fields.lookup "rate" with
    | none => true
    | some (JVal.num _) => true
    | some _ => false

/-- The `usd_cny` entry (the only one `__init__` arithmetic touches, given
the configured override) is absent or resolves to a number. -/
def goodRates (exchange_rates : List (String × JVal)) : Bool :=
  match exchange_rates.lookup "usd_cny" with
  | none => true
  | some v => goodRateEntry v

-- ==================== concrete sample data ==============================

/-- Rates resolved from CNY_NGN = 216 (override) and USD_CNY = 7.504,
giving USD_NGN = 1620.864. -/
def sampleRates : Resolved := ⟨216 * (938 / 125), 938 / 125, 216⟩

/-- An exchange-rate mapping carrying `usd_cny = 7.504`. -/
def sampleER : List (String × JVal) := [("usd_cny", JVal.num (938 / 125))]

/-- Tin reference price 30,000 USD/mt. -/
def smmTin : List (String × JVal) :=
  [("tin", JVal.dict [("price_avg", JVal.num 30000)])]

/-- Tantalum-oxide reference price 65 USD/kg. -/
def smmTa : List (String × JVal) :=
  [("tantalum_oxide", JVal.dict [("price_avg", JVal.num 65)])]

/-- A monazite reference price of 1 USD/mt (too low to cover logistics). -/
def smmMon : List (String × JVal) :=
  [("monazite_concentrate", JVal.dict [("price_avg", JVal.num 1)])]

/-- A spodumene reference price of 1 USD/mt (too low to cover logistics). -/
def smmSpod : List (String × JVal) :=
  [("spodumene", JVal.dict [("price_avg", JVal.num 1)])]

/-- Lithium-carbonate reference price 20,000 USD/mt. -/
def smmLc : List (String × JVal) :=
  [("lithium_carbonate", JVal.dict [("price_avg", JVal.num 20000)])]

/-- Lithium-carbonate reference price 40,000 USD/mt (doubled). -/
def smmLc2 : List (String × JVal) :=
  [("lithium_carbonate", JVal.dict [("price_avg", JVal.num 40000)])]

/-- Tin, lead and zinc reference prices together. -/
def smmFull : List (String × JVal) :=
  [("tin", JVal.dict [("price_avg", JVal.num 30000)]),
   ("lead", JVal.dict [("price_avg", JVal.num 2000)]),
   ("zinc", JVal.dict [("price_avg", JVal.num 2500)])]

/-- A table whose primary key stores the price 0 while a fallback key holds
a usable price 5. -/
def smmZeroPrimary : List (String × JVal) :=
  [("k", JVal.dict [("price", JVal.num 0)]),
   ("fb", JVal.dict [("price_avg", JVal.num 5)])]

/-- A table whose primary key holds a bare number instead of a record,
while a fallback key holds a usable record. -/
def smmBareNumber : List (String × JVal) :=
  [("k", JVal.num 99),
   ("fb", JVal.dict [("price_avg", JVal.num 7)])]

/-- A table in which every key holds a bare (non-mapping) value. -/
def smmAllBare : List (String × JVal) :=
  [("a", JVal.num 1), ("b", JVal.null)]

/-- A snapshot with a malformed price value: the stored `price_avg` is a
nested object, on which Python's `float()` raises `TypeError`. -/
def badSnapshot : Snapshot :=
  ⟨[], [("tin", JVal.dict [("price_avg", JVal.dict [("x", JVal.num 1)])])]⟩

/-- A wellformed snapshot: numeric `usd_cny` rate and numeric tin price. -/
def goodSnapshot : Snapshot := ⟨sampleER, smmTin⟩

-- ==================== result-shape extractors ============================

/-- The commodity keys and grade labels of a computed table (empty when the
computation raised). -/
def tableShape : Except PyErr ResultTable → List (String × List String)
  | Except.ok t =>
      t.max_purchase_prices.map (fun kv => (kv.1, kv.2.grades.map Prod.fst))
  | Except.error _ => []

/-- The keys of the recorded source prices (empty when the computation
raised). -/
def sourceKeys : Except PyErr ResultTable → List String
  | Except.ok t => t.source_prices.map Prod.fst
  | Except.error _ => []

-- ==================== helper lemmas ======================================

lemma lookup_all_prop (p : JVal → Bool) :
    ∀ (l : List (String × JVal)) (k : String) (v : JVal),
      l.all (fun kv => p kv.2) = true → l.lookup k = some v → p v = true := by
  intro l
  induction l with
  | nil => intro k v _ hl; simp [List.lookup] at hl
  | cons head tail ih =>
    intro k v hall hl
    obtain ⟨k1, v1⟩ := head
    rw [List.all_cons] at hall
    have h1 : p v1 = true := by
      have := hall
      simp only [Bool.and_eq_true] at this
      exact this.1
    have h2 : tail.all (fun kv => p kv.2) = true := by
      simp only [Bool.and_eq_true] at hall
      exact hall.2
    rw [List.lookup] at hl
    by_cases hk : (k == k1) = true
    · rw [hk] at hl
      cases hl
      exact h1
    · rw [Bool.not_eq_true] at hk
      rw [hk] at hl
      exact ih k v h2 hl

lemma div_lt_div_same (a b c : ℚ) (hc : 0 < c) (h : a < b) : a / c < b / c := by
  rw [div_lt_div_iff₀ hc hc]
  exact mul_lt_mul_of_pos_right h hc

lemma attemptKey_eq_amended (smm : List (String × JVal)) (k f : String)
    (h : goodSmm smm = true) :
    attemptKey smm k f = Except.ok (amendedSpecKey smm k f) := by
  have h' : smm.all (fun kv => goodEntry kv.2) = true := h
  rw [attemptKey, amendedSpecKey]
  cases hl : smm.lookup k with
  | none => rfl
  | some v =>
    have hv : goodEntry v = true := lookup_all_prop goodEntry smm k v h' hl
    cases v with
    | num q => rfl
    | null => rfl
    | dict fields =>
      have hfl : fields.all (fun kv => isLeaf kv.2) = true := hv
      simp only [Option.getD_some]
      cases ha : fields.lookup f with
      | none =>
        cases hb : fields.lookup "price" with
        | none => simp [truthy, amendedVerdict, storedNum, ha, hb]
        | some bv =>
          have hbl : isLeaf bv = true :=
            lookup_all_prop isLeaf fields "price" bv hfl hb
          cases bv with
          | num p =>
            by_cases hp : p = 0
            · subst hp; simp [truthy, amendedVerdict, storedNum, ha, hb]
            · simp [truthy, amendedVerdict, storedNum, ha, hb, hp]
          | null => simp [truthy, amendedVerdict, storedNum, ha, hb]
          | dict g2 => simp [isLeaf] at hbl
      | some av =>
        have hal : isLeaf av = true := lookup_all_prop isLeaf fields f av hfl ha
        cases av with
        | num q =>
          by_cases hq : q = 0
          · subst hq
            cases hb : fields.lookup "price" with
            | none => simp [truthy, amendedVerdict, storedNum, ha, hb]
            | some bv =>
              have hbl : isLeaf bv = true :=
                lookup_all_prop isLeaf fields "price" bv hfl hb
              cases bv with
              | num p =>
                by_cases hp : p = 0
                · subst hp; simp [truthy, amendedVerdict, storedNum, ha, hb]
                · simp [truthy, amendedVerdict, storedNum, ha, hb, hp]
              | null => simp [truthy, amendedVerdict, storedNum, ha, hb]
              | dict g2 => simp [isLeaf] at hbl
          · simp [truthy, amendedVerdict, storedNum, ha, hq]
        | dict g2 => simp [isLeaf] at hal
        | null =>
          cases hb : fields.lookup "price" with
          | none => simp [truthy, amendedVerdict, storedNum, ha, hb]
          | some bv =>
            have hbl : isLeaf bv = true :=
              lookup_all_prop isLeaf fields "price" bv hfl hb
            cases bv with
            | num p =>
              by_cases hp : p = 0
              · subst hp; simp [truthy, amendedVerdict, storedNum, ha, hb]
              · simp [truthy, amendedVerdict, storedNum, ha, hb, hp]
            | null => simp [truthy, amendedVerdict, storedNum, ha, hb]
            | dict g2 => simp [isLeaf] at hbl

lemma getPriceKeys_eq_amended (smm : List (String × JVal)) (f : String)
    (h : goodSmm smm = true) :
    ∀ ks, getPriceKeys smm f ks = Except.ok (getPriceAmendedKeys smm f ks) := by
  intro ks
  induction ks with
  | nil => rfl
  | cons k t ih =>
    rw [getPriceKeys, getPriceAmendedKeys, attemptKey_eq_amended smm k f h]
    cases amendedSpecKey smm k f with
    | none => simpa using ih
    | some r => rfl

lemma attemptKey_returns_nonzero (smm : List (String × JVal)) (k f : String)
    (r : Option ℚ) (h : attemptKey smm k f = Except.ok (some r)) : r ≠ some 0 := by
  simp only [attemptKey] at h
  split at h
  · split at h
    · exact absurd h (by simp)
    · rename_i q heq
      rw [Except.ok.injEq, Option.some.injEq] at h
      subst h
      by_cases hq : q = 0
      · simp [hq]
      · simp [hq]
    · exact absurd h (by simp)
  · exact absurd h (by simp)

lemma getPriceKeys_never_zero (smm : List (String × JVal)) (f : String) :
    ∀ ks, getPriceKeys smm f ks ≠ Except.ok (some 0) := by
  intro ks
  induction ks with
  | nil => simp [getPriceKeys]
  | cons k t ih =>
    rw [getPriceKeys]
    cases hA : attemptKey smm k f with
    | error e => simp
    | ok o =>
      cases o with
      | none => exact ih
      | some r =>
        have := attemptKey_returns_nonzero smm k f r hA
        simp only []
        intro hc
        rw [Except.ok.injEq] at hc
        exact this hc

-- ==================== claim C3 ===========================================

/-- C3 counterexample: with the primary key storing the price 0 and a
fallback key storing the usable price 5, `_get_price` returns `None`
instead of the fallback's usable value 5 (the search stops at the stored
zero and never consults the fallback keys). -/
theorem get_price_fallback_skip_counterexample :
    getPrice smmZeroPrimary "k" "price_avg" ["fb"] = Except.ok none ∧
    getPriceClaimed smmZeroPrimary "k" "price_avg" ["fb"] = some 5 ∧
    getPrice smmZeroPrimary "k" "price_avg" ["fb"] ≠
      Except.ok (some (5 : ℚ)) := by
  refine ⟨rfl, rfl, fun hc => ?_⟩
  exact Option.noConfusion (Except.ok.inj hc)

/-- C3 (amended): on tables whose records hold numeric-or-null fields,
`_get_price` returns the first usable value obtained by trying, for the
primary key and then each fallback key in order, the record's `field` and
then its generic `"price"` field — except that when the candidate a key
produces is the stored number 0, the search stops immediately and `None`
is returned without trying the remaining fallback keys; `_get_price` never
returns 0 as a valid price. -/
theorem get_price_first_usable_amended :
    (∀ (smm : List (String × JVal)) (key field : String) (fbs : List String),
        goodSmm smm = true →
        getPrice smm key field fbs =
          Except.ok (getPriceAmendedSpec smm key field fbs)) ∧
    (∀ (smm : List (String × JVal)) (key field : String) (fbs : List String),
        getPrice smm key field fbs ≠ Except.ok (some 0)) := by
  constructor
  · intro smm key field fbs h
    exact getPriceKeys_eq_amended smm field h (key :: fbs)
  · intro smm key field fbs
    exact getPriceKeys_never_zero smm field (key :: fbs)

/-- Witness for C3 (amended): instantiated at the zero-then-fallback
table. -/
theorem get_price_first_usable_amended_witness :
    getPrice smmZeroPrimary "k" "price_avg" ["fb"] =
      Except.ok (getPriceAmendedSpec smmZeroPrimary "k" "price_avg" ["fb"]) ∧
    getPrice smmZeroPrimary "fb" "price_avg" [] = Except.ok (some 5) :=
  ⟨get_price_first_usable_amended.1 smmZeroPrimary "k" "price_avg" ["fb"] rfl,
   rfl⟩

-- ==================== claim C1 ===========================================

/-- C1: for tin ore, `calc_tin_ore(grade)` computes
`((referenceUSD * grade/100) * USD_NGN - LOGISTICS_COST_SEA) / VAT_RATE / 1000`
whenever the tin reference price resolves to a usable (non-zero) value; in
particular, with tin at 30,000 USD/mt, grade 70, CNY_NGN = 216,
USD_CNY = 7.504, VAT divisor 1.13 and logistics 80,309 NGN/mt, the result
rounds to 30,051 NGN/kg. -/
theorem tin_ore_formula :
    (∀ (r : Resolved) (smm : List (String × JVal)) (g p : ℚ),
        getPrice smm "tin" "price_avg" [] = Except.ok (some p) → p ≠ 0 →
        calc_tin_ore r smm g =
          Except.ok
            ((p * (g / 100) * r.USD_NGN - LOGISTICS_COST_SEA) / VAT_RATE / 1000)) ∧
    calc_tin_ore sampleRates smmTin 70 = Except.ok (6791567 / 226) ∧
    pyRound0 (6791567 / 226) = 30051 := by
  have hgen : ∀ (r : Resolved) (smm : List (String × JVal)) (g p : ℚ),
      getPrice smm "tin" "price_avg" [] = Except.ok (some p) → p ≠ 0 →
      calc_tin_ore r smm g =
        Except.ok
          ((p * (g / 100) * r.USD_NGN - LOGISTICS_COST_SEA) / VAT_RATE / 1000) := by
    intro r smm g p h hp
    simp only [calc_tin_ore, h]
    rw [if_neg hp]
  refine ⟨hgen, ?_, ?_⟩
  · rw [hgen sampleRates smmTin 70 30000 rfl (by norm_num)]
    norm_num [sampleRates, LOGISTICS_COST_SEA, VAT_RATE]
  · norm_num [pyRound0]

/-- Witness for C1: the formula instantiated at the concrete sample data. -/
theorem tin_ore_formula_witness :
    calc_tin_ore sampleRates smmTin 60 =
      Except.ok
        ((30000 * (60 / 100) * sampleRates.USD_NGN - LOGISTICS_COST_SEA) /
          VAT_RATE / 1000) :=
  tin_ore_formula.1 sampleRates smmTin 60 30000 rfl (by norm_num)

-- ==================== claim C2 ===========================================

/-- C2: after a successful construction the resolved rates always satisfy
`USD_NGN = CNY_NGN * USD_CNY`, and the construction depends only on the
snapshot's `usd_cny` entry — in particular the snapshot's own `usd_ngn`
value never influences the result. -/
theorem fx_rates_consistent :
    (∀ (er : List (String × JVal)) (r : Resolved),
        initCalc er = Except.ok r → r.USD_NGN = r.CNY_NGN * r.USD_CNY) ∧
    (∀ (er₁ er₂ : List (String × JVal)),
        er₁.lookup "usd_cny" = er₂.lookup "usd_cny" →
        initCalc er₁ = initCalc er₂) := by
  constructor
  · intro er r h
    unfold initCalc at h
    simp only [CNY_NGN_OVERRIDE] at h
    split at h
    · injection h with h'
      subst h'
      rfl
    · exact absurd h (by simp)
  · intro er₁ er₂ h
    unfold initCalc
    simp only [CNY_NGN_OVERRIDE]
    rw [h]

/-- Witness for C2: the invariant and the usd_ngn-irrelevance at concrete
snapshots. -/
theorem fx_rates_consistent_witness :
    sampleRates.USD_NGN = sampleRates.CNY_NGN * sampleRates.USD_CNY ∧
    initCalc [("usd_ngn", JVal.num 999999)] = initCalc [] := by
  constructor
  · exact fx_rates_consistent.1 sampleER sampleRates rfl
  · exact fx_rates_consistent.2 [("usd_ngn", JVal.num 999999)] [] rfl

-- ==================== claim C4 ===========================================

/-- C4: for monazite, whenever the pre-VAT FOB value (grade-scaled
reference price in NGN minus the sea-logistics cost) is ≤ 0,
`calc_monazite` returns exactly the missing-data sentinel 0; no such clamp
exists for spodumene, which can return a negative price. -/
theorem monazite_negative_clamp :
    (∀ (r : Resolved) (smm : List (String × JVal)) (g p : ℚ),
        getPrice smm "monazite_concentrate" "price_avg"
            ["monazite", "monazite_concentrate"] = Except.ok (some p) →
        p ≠ 0 →
        p * r.USD_NGN * (g / 60) - LOGISTICS_COST_SEA ≤ 0 →
        calc_monazite r smm g = Except.ok 0) ∧
    calc_spodumene sampleRates smmSpod 3 = Except.ok (-119247852 / 2825) ∧
    ((-119247852 : ℚ) / 2825 < 0) := by
  refine ⟨?_, ?_, by norm_num⟩
  · intro r smm g p h hp hfob
    simp only [calc_monazite, h]
    rw [if_neg hp, if_pos hfob]
  · have e : getPrice smmSpod "spodumene" "price_avg" [] =
        Except.ok (some 1) := rfl
    simp only [calc_spodumene, e]
    rw [if_neg (show (1 : ℚ) ≠ 0 by norm_num)]
    norm_num [sampleRates, LOGISTICS_COST_SEA, VAT_RATE, SPODUMENE_DISCOUNT]

/-- Witness for C4: a monazite price too low to cover logistics yields the
sentinel 0. -/
theorem monazite_negative_clamp_witness :
    calc_monazite sampleRates smmMon 30 = Except.ok 0 :=
  monazite_negative_clamp.1 sampleRates smmMon 30 1 rfl (by norm_num)
    (by norm_num [sampleRates, LOGISTICS_COST_SEA])

-- ==================== claim C5 ===========================================

/-- C5 counterexample: at oxide price 65 USD/kg, air cost 8, VAT 1.13,
USD_NGN = 216 × 7.504 and grade 30, the per-grade-point unit price is
11548656/14125 ≈ 817.60 NGN (not 817.9), and the grade-30 price is
346459680/14125 ≈ 24,528 NGN/kg (not ≈ 24,538). -/
theorem coltan_figures_counterexample :
    calc_coltan sampleRates smmTa 1 = Except.ok (11548656 / 14125) ∧
    ((11548656 : ℚ) / 14125 ≠ 8179 / 10) ∧
    calc_coltan sampleRates smmTa 30 = Except.ok (346459680 / 14125) ∧
    pyRound0 (346459680 / 14125) = 24528 ∧
    ((346459680 : ℚ) / 14125 < 24529) := by
  have e : getPrice smmTa "tantalum_oxide" "price_avg" [] =
      Except.ok (some 65) := rfl
  have h1 : ∀ g : ℚ, calc_coltan sampleRates smmTa g =
      Except.ok (g * ((65 - COLTAN_AIR_COST) / VAT_RATE / 100 *
        sampleRates.USD_NGN)) := by
    intro g
    simp only [calc_coltan, e]
    rw [if_neg (show (65 : ℚ) ≠ 0 by norm_num)]
  refine ⟨?_, by norm_num, ?_, by norm_num [pyRound0], by norm_num⟩
  · rw [h1 1]
    norm_num [sampleRates, COLTAN_AIR_COST, VAT_RATE]
  · rw [h1 30]
    norm_num [sampleRates, COLTAN_AIR_COST, VAT_RATE]

/-- C5 (amended): `calc_coltan(grade)` computes
`grade * ((oxideUSD - COLTAN_AIR_COST) / VAT_RATE / 100 * USD_NGN)`, the
fixed per-kilogram cost subtracted before VAT division with no
sea-logistics term; at the quoted inputs the per-grade-point unit price is
11548656/14125 ≈ 817.60 NGN and the grade-30 result rounds to 24,528
NGN/kg. -/
theorem coltan_formula :
    (∀ (r : Resolved) (smm : List (String × JVal)) (g p : ℚ),
        getPrice smm "tantalum_oxide" "price_avg" [] = Except.ok (some p) →
        p ≠ 0 →
        calc_coltan r smm g =
          Except.ok (g * ((p - COLTAN_AIR_COST) / VAT_RATE / 100 * r.USD_NGN))) ∧
    calc_coltan sampleRates smmTa 1 = Except.ok (11548656 / 14125) ∧
    calc_coltan sampleRates smmTa 30 = Except.ok (346459680 / 14125) ∧
    pyRound0 (346459680 / 14125) = 24528 := by
  have hgen : ∀ (r : Resolved) (smm : List (String × JVal)) (g p : ℚ),
      getPrice smm "tantalum_oxide" "price_avg" [] = Except.ok (some p) →
      p ≠ 0 →
      calc_coltan r smm g =
        Except.ok (g * ((p - COLTAN_AIR_COST) / VAT_RATE / 100 * r.USD_NGN)) := by
    intro r smm g p h hp
    simp only [calc_coltan, h]
    rw [if_neg hp]
  refine ⟨hgen, ?_, ?_, by norm_num [pyRound0]⟩
  · rw [hgen sampleRates smmTa 1 65 rfl (by norm_num)]
    norm_num [sampleRates, COLTAN_AIR_COST, VAT_RATE]
  · rw [hgen sampleRates smmTa 30 65 rfl (by norm_num)]
    norm_num [sampleRates, COLTAN_AIR_COST, VAT_RATE]

/-- Witness for C5 (amended): the formula instantiated at the concrete
sample data. -/
theorem coltan_formula_witness :
    calc_coltan sampleRates smmTa 20 =
      Except.ok
        (20 * ((65 - COLTAN_AIR_COST) / VAT_RATE / 100 * sampleRates.USD_NGN)) :=
  coltan_formula.1 sampleRates smmTa 20 65 rfl (by norm_num)

-- ==================== claim C6 ===========================================

/-- C6: every pricing strategy returns the sentinel 0 (not an exception)
when its required reference price is unavailable from the lookup
resolver. -/
theorem strategies_missing_sentinel :
    ∀ (r : Resolved) (smm : List (String × JVal)) (g : ℚ),
      (getPrice smm "tin" "price_avg" [] = Except.ok none →
        calc_tin_ore r smm g = Except.ok 0) ∧
      (getPrice smm "tantalum_oxide" "price_avg" [] = Except.ok none →
        calc_coltan r smm g = Except.ok 0) ∧
      (getPrice smm "monazite_concentrate" "price_avg"
          ["monazite", "monazite_concentrate"] = Except.ok none →
        calc_monazite r smm g = Except.ok 0) ∧
      (getPrice smm "titanium_concentrate" "price_avg" [] = Except.ok none →
        calc_titanium r smm = Except.ok 0) ∧
      (getPrice smm "zircon_sand" "price_avg" [] = Except.ok none →
        calc_zircon r smm = Except.ok 0) ∧
      (getPrice smm "spodumene" "price_avg" [] = Except.ok none →
        calc_spodumene r smm g = Except.ok 0) ∧
      (getPrice smm "lithium_carbonate" "price_avg" [] = Except.ok none →
        calc_lepidolite r smm g = Except.ok 0) ∧
      (getPrice smm "lead" "price_avg" [] = Except.ok none →
        calc_lead_ore r smm g = Except.ok 0) ∧
      (getPrice smm "zinc" "price_avg" [] = Except.ok none →
        calc_zinc_ore r smm g = Except.ok 0) := by
  intro r smm g
  refine ⟨?_, ?_, ?_, ?_, ?_, ?_, ?_, ?_, ?_⟩
  · intro h; simp only [calc_tin_ore, h]
  · intro h; simp only [calc_coltan, h]
  · intro h; simp only [calc_monazite, h]
  · intro h; simp only [calc_titanium, h]
  · intro h; simp only [calc_zircon, h]
  · intro h; simp only [calc_spodumene, h]
  · intro h; simp only [calc_lepidolite, h]
  · intro h; simp only [calc_lead_ore, h]
  · intro h; simp only [calc_zinc_ore, h]

/-- Witness for C6: with an empty price table every strategy returns the
sentinel 0. -/
theorem strategies_missing_sentinel_witness :
    calc_tin_ore sampleRates [] 50 = Except.ok 0 ∧
    calc_coltan sampleRates [] 50 = Except.ok 0 ∧
    calc_monazite sampleRates [] 50 = Except.ok 0 ∧
    calc_titanium sampleRates [] = Except.ok 0 ∧
    calc_zircon sampleRates [] = Except.ok 0 ∧
    calc_spodumene sampleRates [] 50 = Except.ok 0 ∧
    calc_lepidolite sampleRates [] 50 = Except.ok 0 ∧
    calc_lead_ore sampleRates [] 50 = Except.ok 0 ∧
    calc_zinc_ore sampleRates [] 50 = Except.ok 0 := by
  have h := strategies_missing_sentinel sampleRates [] 50
  exact ⟨h.1 rfl, h.2.1 rfl, h.2.2.1 rfl, h.2.2.2.1 rfl, h.2.2.2.2.1 rfl,
    h.2.2.2.2.2.1 rfl, h.2.2.2.2.2.2.1 rfl, h.2.2.2.2.2.2.2.1 rfl,
    h.2.2.2.2.2.2.2.2 rfl⟩

-- ==================== claim C8 ===========================================

lemma linear_val_lt (p F g₁ g₂ : ℚ) (hp : 0 < p) (hF : 0 < F) (h : g₁ < g₂) :
    (p * (g₁ / 100) * F - LOGISTICS_COST_SEA) / VAT_RATE <
      (p * (g₂ / 100) * F - LOGISTICS_COST_SEA) / VAT_RATE := by
  apply div_lt_div_same _ _ _ (by norm_num [VAT_RATE])
  apply sub_lt_sub_right
  apply mul_lt_mul_of_pos_right _ hF
  apply mul_lt_mul_of_pos_left _ hp
  exact div_lt_div_same _ _ _ (by norm_num) h

/-- C8: with FX, logistics and a usable positive reference price fixed, the
linear metal-ore strategies (tin, lead, zinc) are strictly increasing in
grade. -/
theorem linear_ore_grade_monotone :
    ∀ (r : Resolved) (smm : List (String × JVal)) (g₁ g₂ pt pl pz : ℚ),
      0 < r.USD_NGN → g₁ < g₂ →
      getPrice smm "tin" "price_avg" [] = Except.ok (some pt) → 0 < pt →
      getPrice smm "lead" "price_avg" [] = Except.ok (some pl) → 0 < pl →
      getPrice smm "zinc" "price_avg" [] = Except.ok (some pz) → 0 < pz →
      (∀ a b, calc_tin_ore r smm g₁ = Except.ok a →
        calc_tin_ore r smm g₂ = Except.ok b → a < b) ∧
      (∀ a b, calc_lead_ore r smm g₁ = Except.ok a →
        calc_lead_ore r smm g₂ = Except.ok b → a < b) ∧
      (∀ a b, calc_zinc_ore r smm g₁ = Except.ok a →
        calc_zinc_ore r smm g₂ = Except.ok b → a < b) := by
  intro r smm g₁ g₂ pt pl pz hF hg ht hpt hl hpl hz hpz
  refine ⟨?_, ?_, ?_⟩
  · intro a b ha hb
    simp only [calc_tin_ore, ht, if_neg (ne_of_gt hpt)] at ha hb
    injection ha with ha1
    injection hb with hb1
    subst ha1
    subst hb1
    exact div_lt_div_same _ _ 1000 (by norm_num) (linear_val_lt pt r.USD_NGN g₁ g₂ hpt hF hg)
  · intro a b ha hb
    simp only [calc_lead_ore, hl, if_neg (ne_of_gt hpl)] at ha hb
    injection ha with ha1
    injection hb with hb1
    subst ha1
    subst hb1
    exact linear_val_lt pl r.USD_NGN g₁ g₂ hpl hF hg
  · intro a b ha hb
    simp only [calc_zinc_ore, hz, if_neg (ne_of_gt hpz)] at ha hb
    injection ha with ha1
    injection hb with hb1
    subst ha1
    subst hb1
    exact linear_val_lt pz r.USD_NGN g₁ g₂ hpz hF hg

/-- Witness for C8: the three strict inequalities at concrete prices
(tin 30,000, lead 2,000, zinc 2,500 USD/mt) between grades 70 and 75. -/
theorem linear_ore_grade_monotone_witness :
    ((6791567 : ℚ) / 226 < 36389131 / 1130) ∧
    ((218890060 : ℚ) / 113 < 235098700 / 113) ∧
    ((275620300 : ℚ) / 113 < 295881100 / 113) := by
  have etin : getPrice smmFull "tin" "price_avg" [] = Except.ok (some 30000) := rfl
  have elead : getPrice smmFull "lead" "price_avg" [] = Except.ok (some 2000) := rfl
  have ezinc : getPrice smmFull "zinc" "price_avg" [] = Except.ok (some 2500) := rfl
  have h := linear_ore_grade_monotone sampleRates smmFull 70 75 30000 2000 2500
    (by norm_num [sampleRates]) (by norm_num) etin (by norm_num) elead
    (by norm_num) ezinc (by norm_num)
  have t1 : calc_tin_ore sampleRates smmFull 70 = Except.ok (6791567 / 226) := by
    simp only [calc_tin_ore, etin, if_neg (show (30000 : ℚ) ≠ 0 by norm_num)]
    norm_num [sampleRates, LOGISTICS_COST_SEA, VAT_RATE]
  have t2 : calc_tin_ore sampleRates smmFull 75 = Except.ok (36389131 / 1130) := by
    simp only [calc_tin_ore, etin, if_neg (show (30000 : ℚ) ≠ 0 by norm_num)]
    norm_num [sampleRates, LOGISTICS_COST_SEA, VAT_RATE]
  have l1 : calc_lead_ore sampleRates smmFull 70 = Except.ok (218890060 / 113) := by
    simp only [calc_lead_ore, elead, if_neg (show (2000 : ℚ) ≠ 0 by norm_num)]
    norm_num [sampleRates, LOGISTICS_COST_SEA, VAT_RATE]
  have l2 : calc_lead_ore sampleRates smmFull 75 = Except.ok (235098700 / 113) := by
    simp only [calc_lead_ore, elead, if_neg (show (2000 : ℚ) ≠ 0 by norm_num)]
    norm_num [sampleRates, LOGISTICS_COST_SEA, VAT_RATE]
  have z1 : calc_zinc_ore sampleRates smmFull 70 = Except.ok (275620300 / 113) := by
    simp only [calc_zinc_ore, ezinc, if_neg (show (2500 : ℚ) ≠ 0 by norm_num)]
    norm_num [sampleRates, LOGISTICS_COST_SEA, VAT_RATE]
  have z2 : calc_zinc_ore sampleRates smmFull 75 = Except.ok (295881100 / 113) := by
    simp only [calc_zinc_ore, ezinc, if_neg (show (2500 : ℚ) ≠ 0 by norm_num)]
    norm_num [sampleRates, LOGISTICS_COST_SEA, VAT_RATE]
  exact ⟨h.1 _ _ t1 t2, h.2.1 _ _ l1 l2, h.2.2 _ _ z1 z2⟩

-- ==================== claim C9 ===========================================

/-- C9: doubling a usable positive lithium-carbonate reference price, with
positive grade and positive FX rates and all static parameters fixed,
strictly increases the lepidolite price. -/
theorem lepidolite_doubling :
    ∀ (r : Resolved) (smm smm₂ : List (String × JVal)) (g c : ℚ),
      0 < g → 0 < c → 0 < r.USD_CNY → 0 < r.CNY_NGN →
      getPrice smm "lithium_carbonate" "price_avg" [] = Except.ok (some c) →
      getPrice smm₂ "lithium_carbonate" "price_avg" [] =
        Except.ok (some (2 * c)) →
      ∀ a b, calc_lepidolite r smm g = Except.ok a →
        calc_lepidolite r smm₂ g = Except.ok b → a < b := by
  intro r smm smm₂ g c hg hc hU hN h1 h2 a b ha hb
  have hc0 : c ≠ 0 := ne_of_gt hc
  have h2c0 : 2 * c ≠ 0 := by positivity
  simp only [calc_lepidolite, h1, if_neg hc0] at ha
  simp only [calc_lepidolite, h2, if_neg h2c0] at hb
  injection ha with ha1
  injection hb with hb1
  subst ha1
  subst hb1
  rw [← sub_pos]
  have hdiff :
      ((2 * c * r.USD_CNY - LEPIDOLITE_PROCESSING_COST_CNY) /
            LEPIDOLITE_TONS_PER_CARBONATE * (g / LEPIDOLITE_BASE_GRADE) *
            r.CNY_NGN - LOGISTICS_COST_SEA) / VAT_RATE * LEPIDOLITE_DISCOUNT -
        ((c * r.USD_CNY - LEPIDOLITE_PROCESSING_COST_CNY) /
            LEPIDOLITE_TONS_PER_CARBONATE * (g / LEPIDOLITE_BASE_GRADE) *
            r.CNY_NGN - LOGISTICS_COST_SEA) / VAT_RATE * LEPIDOLITE_DISCOUNT =
      c * r.USD_CNY * g * r.CNY_NGN * (3 / 565) := by
    simp only [LEPIDOLITE_PROCESSING_COST_CNY, LEPIDOLITE_TONS_PER_CARBONATE,
      LEPIDOLITE_BASE_GRADE, LOGISTICS_COST_SEA, VAT_RATE, LEPIDOLITE_DISCOUNT]
    ring
  rw [hdiff]
  positivity

/-- Witness for C9: doubling the carbonate price from 20,000 to 40,000
USD/mt strictly raises the lepidolite price at grade 2.5. -/
theorem lepidolite_doubling_witness :
    (31636650 : ℚ) / 113 < 80262570 / 113 := by
  have e1 : calc_lepidolite sampleRates smmLc (5 / 2) =
      Except.ok (31636650 / 113) := by
    have e : getPrice smmLc "lithium_carbonate" "price_avg" [] =
        Except.ok (some 20000) := rfl
    simp only [calc_lepidolite, e, if_neg (show (20000 : ℚ) ≠ 0 by norm_num)]
    norm_num [sampleRates, LOGISTICS_COST_SEA, VAT_RATE,
      LEPIDOLITE_PROCESSING_COST_CNY, LEPIDOLITE_TONS_PER_CARBONATE,
      LEPIDOLITE_BASE_GRADE, LEPIDOLITE_DISCOUNT]
  have e2 : calc_lepidolite sampleRates smmLc2 (5 / 2) =
      Except.ok (80262570 / 113) := by
    have e : getPrice smmLc2 "lithium_carbonate" "price_avg" [] =
        Except.ok (some 40000) := rfl
    simp only [calc_lepidolite, e, if_neg (show (40000 : ℚ) ≠ 0 by norm_num)]
    norm_num [sampleRates, LOGISTICS_COST_SEA, VAT_RATE,
      LEPIDOLITE_PROCESSING_COST_CNY, LEPIDOLITE_TONS_PER_CARBONATE,
      LEPIDOLITE_BASE_GRADE, LEPIDOLITE_DISCOUNT]
  have h2 : getPrice smmLc2 "lithium_carbonate" "price_avg" [] =
      Except.ok (some (2 * 20000)) := by
    rw [show (2 : ℚ) * 20000 = 40000 by norm_num]
    rfl
  exact lepidolite_doubling sampleRates smmLc smmLc2 (5 / 2) 20000 (by norm_num)
    (by norm_num) (by norm_num [sampleRates]) (by norm_num [sampleRates]) rfl h2
    _ _ e1 e2

-- ==================== claim C10 ==========================================

/-- C10: when the record stored under a key is not a mapping, `_get_price`
skips that key without raising and proceeds to the fallback keys, and it
returns `None` when every candidate key holds a non-mapping value. -/
theorem get_price_skips_non_mapping :
    (∀ (smm : List (String × JVal)) (key field : String)
        (fbs : List String) (v : JVal),
        smm.lookup key = some v → isLeaf v = true →
        getPrice smm key field fbs = getPriceKeys smm field fbs) ∧
    (∀ (smm : List (String × JVal)) (field : String) (keys : List String),
        (∀ k ∈ keys, ∃ v, smm.lookup k = some v ∧ isLeaf v = true) →
        getPriceKeys smm field keys = Except.ok none) := by
  have hskip : ∀ (smm : List (String × JVal)) (k field : String) (v : JVal),
      smm.lookup k = some v → isLeaf v = true →
      attemptKey smm k field = Except.ok none := by
    intro smm k field v hl hleaf
    simp only [attemptKey, hl, Option.getD_some]
    cases v with
    | num q => rfl
    | null => rfl
    | dict fields => simp [isLeaf] at hleaf
  constructor
  · intro smm key field fbs v hl hleaf
    simp only [getPrice, getPriceKeys, hskip smm key field v hl hleaf]
  · intro smm field keys hkeys
    induction keys with
    | nil => rfl
    | cons k ks ih =>
      obtain ⟨v, hl, hleaf⟩ := hkeys k (by simp)
      simp only [getPriceKeys, hskip smm k field v hl hleaf]
      exact ih (fun k' hk' => hkeys k' (by simp [hk']))

-- ==================== claim C7 ===========================================

lemma initCalc_ok_of_good (er : List (String × JVal))
    (h : goodRates er = true) : ∃ r, initCalc er = Except.ok r := by
  unfold initCalc
  simp only [CNY_NGN_OVERRIDE]
  unfold goodRates at h
  cases hl : er.lookup "usd_cny" with
  | none => exact ⟨_, rfl⟩
  | some v =>
    rw [hl] at h
    cases v with
    | num q => exact ⟨_, rfl⟩
    | null => simp [goodRateEntry] at h
    | dict fields =>
      simp only [goodRateEntry] at h
      cases hr : fields.lookup "rate" with
      | none => simp only [resolveRaw, hr, Option.getD_none]; exact ⟨_, rfl⟩
      | some w =>
        rw [hr] at h
        cases w with
        | num q => simp only [resolveRaw, hr, Option.getD_some]; exact ⟨_, rfl⟩
        | null => simp at h
        | dict g2 => simp at h

lemma getPrice_ok_of_good (smm : List (String × JVal)) (k f : String)
    (fbs : List String) (h : goodSmm smm = true) :
    ∃ v, getPrice smm k f fbs = Except.ok v :=
  ⟨_, getPriceKeys_eq_amended smm f h (k :: fbs)⟩

lemma calc_tin_ore_isOk (r : Resolved) (smm : List (String × JVal)) (g : ℚ)
    (h : goodSmm smm = true) : ∃ v, calc_tin_ore r smm g = Except.ok v := by
  have hw : getPrice smm "tin" "price_avg" [] =
      Except.ok (getPriceAmendedSpec smm "tin" "price_avg" []) :=
    getPriceKeys_eq_amended smm "price_avg" h ("tin" :: [])
  unfold calc_tin_ore
  rw [hw]
  cases getPriceAmendedSpec smm "tin" "price_avg" [] with
  | none => exact ⟨0, rfl⟩
  | some q =>
    dsimp only
    split
    · exact ⟨0, rfl⟩
    · exact ⟨_, rfl⟩

lemma calc_coltan_isOk (r : Resolved) (smm : List (String × JVal)) (g : ℚ)
    (h : goodSmm smm = true) : ∃ v, calc_coltan r smm g = Except.ok v := by
  have hw : getPrice smm "tantalum_oxide" "price_avg" [] =
      Except.ok (getPriceAmendedSpec smm "tantalum_oxide" "price_avg" []) :=
    getPriceKeys_eq_amended smm "price_avg" h ("tantalum_oxide" :: [])
  unfold calc_coltan
  rw [hw]
  cases getPriceAmendedSpec smm "tantalum_oxide" "price_avg" [] with
  | none => exact ⟨0, rfl⟩
  | some q =>
    dsimp only
    split
    · exact ⟨0, rfl⟩
    · exact ⟨_, rfl⟩

lemma calc_monazite_isOk (r : Resolved) (smm : List (String × JVal)) (g : ℚ)
    (h : goodSmm smm = true) : ∃ v, calc_monazite r smm g = Except.ok v := by
  have hw : getPrice smm "monazite_concentrate" "price_avg"
        ["monazite", "monazite_concentrate"] =
      Except.ok (getPriceAmendedSpec smm "monazite_concentrate" "price_avg"
        ["monazite", "monazite_concentrate"]) :=
    getPriceKeys_eq_amended smm "price_avg" h
      ("monazite_concentrate" :: ["monazite", "monazite_concentrate"])
  unfold calc_monazite
  rw [hw]
  cases getPriceAmendedSpec smm "monazite_concentrate" "price_avg"
      ["monazite", "monazite_concentrate"] with
  | none => exact ⟨0, rfl⟩
  | some q =>
    dsimp only
    split
    · exact ⟨0, rfl⟩
    · split
      · exact ⟨0, rfl⟩
      · exact ⟨_, rfl⟩

lemma calc_titanium_isOk (r : Resolved) (smm : List (String × JVal))
    (h : goodSmm smm = true) : ∃ v, calc_titanium r smm = Except.ok v := by
  have hw : getPrice smm "titanium_concentrate" "price_avg" [] =
      Except.ok (getPriceAmendedSpec smm "titanium_concentrate" "price_avg" []) :=
    getPriceKeys_eq_amended smm "price_avg" h ("titanium_concentrate" :: [])
  unfold calc_titanium
  rw [hw]
  cases getPriceAmendedSpec smm "titanium_concentrate" "price_avg" [] with
  | none => exact ⟨0, rfl⟩
  | some q =>
    dsimp only
    split
    · exact ⟨0, rfl⟩
    · exact ⟨_, rfl⟩

lemma calc_zircon_isOk (r : Resolved) (smm : List (String × JVal))
    (h : goodSmm smm = true) : ∃ v, calc_zircon r smm = Except.ok v := by
  have hw : getPrice smm "zircon_sand" "price_avg" [] =
      Except.ok (getPriceAmendedSpec smm "zircon_sand" "price_avg" []) :=
    getPriceKeys_eq_amended smm "price_avg" h ("zircon_sand" :: [])
  unfold calc_zircon
  rw [hw]
  cases getPriceAmendedSpec smm "zircon_sand" "price_avg" [] with
  | none => exact ⟨0, rfl⟩
  | some q =>
    dsimp only
    split
    · exact ⟨0, rfl⟩
    · exact ⟨_, rfl⟩

lemma calc_spodumene_isOk (r : Resolved) (smm : List (String × JVal)) (g : ℚ)
    (h : goodSmm smm = true) : ∃ v, calc_spodumene r smm g = Except.ok v := by
  have hw : getPrice smm "spodumene" "price_avg" [] =
      Except.ok (getPriceAmendedSpec smm "spodumene" "price_avg" []) :=
    getPriceKeys_eq_amended smm "price_avg" h ("spodumene" :: [])
  unfold calc_spodumene
  rw [hw]
  cases getPriceAmendedSpec smm "spodumene" "price_avg" [] with
  | none => exact ⟨0, rfl⟩
  | some q =>
    dsimp only
    split
    · exact ⟨0, rfl⟩
    · exact ⟨_, rfl⟩

lemma calc_lepidolite_isOk (r : Resolved) (smm : List (String × JVal)) (g : ℚ)
    (h : goodSmm smm = true) : ∃ v, calc_lepidolite r smm g = Except.ok v := by
  have hw : getPrice smm "lithium_carbonate" "price_avg" [] =
      Except.ok (getPriceAmendedSpec smm "lithium_carbonate" "price_avg" []) :=
    getPriceKeys_eq_amended smm "price_avg" h ("lithium_carbonate" :: [])
  unfold calc_lepidolite
  rw [hw]
  cases getPriceAmendedSpec smm "lithium_carbonate" "price_avg" [] with
  | none => exact ⟨0, rfl⟩
  | some q =>
    dsimp only
    split
    · exact ⟨0, rfl⟩
    · exact ⟨_, rfl⟩

lemma calc_lead_ore_isOk (r : Resolved) (smm : List (String × JVal)) (g : ℚ)
    (h : goodSmm smm = true) : ∃ v, calc_lead_ore r smm g = Except.ok v := by
  have hw : getPrice smm "lead" "price_avg" [] =
      Except.ok (getPriceAmendedSpec smm "lead" "price_avg" []) :=
    getPriceKeys_eq_amended smm "price_avg" h ("lead" :: [])
  unfold calc_lead_ore
  rw [hw]
  cases getPriceAmendedSpec smm "lead" "price_avg" [] with
  | none => exact ⟨0, rfl⟩
  | some q =>
    dsimp only
    split
    · exact ⟨0, rfl⟩
    · exact ⟨_, rfl⟩

lemma calc_zinc_ore_isOk (r : Resolved) (smm : List (String × JVal)) (g : ℚ)
    (h : goodSmm smm = true) : ∃ v, calc_zinc_ore r smm g = Except.ok v := by
  have hw : getPrice smm "zinc" "price_avg" [] =
      Except.ok (getPriceAmendedSpec smm "zinc" "price_avg" []) :=
    getPriceKeys_eq_amended smm "price_avg" h ("zinc" :: [])
  unfold calc_zinc_ore
  rw [hw]
  cases getPriceAmendedSpec smm "zinc" "price_avg" [] with
  | none => exact ⟨0, rfl⟩
  | some q =>
    dsimp only
    split
    · exact ⟨0, rfl⟩
    · exact ⟨_, rfl⟩

lemma exists_ok_bind {α β : Type} {x : Except PyErr α} {f : α → Except PyErr β}
    {P : β → Prop} (hx : ∃ a, x = Except.ok a)
    (hf : ∀ a, ∃ b, f a = Except.ok b ∧ P b) :
    ∃ b, x >>= f = Except.ok b ∧ P b := by
  obtain ⟨a, ha⟩ := hx
  obtain ⟨b, hb, hP⟩ := hf a
  refine ⟨b, ?_, hP⟩
  rw [ha]
  exact hb

lemma calculate_all_ok_aux (s : Snapshot)
    (h1 : goodRates s.exchange_rates = true)
    (h2 : goodSmm s.smm_prices = true) :
    ∃ t, calculate_all s = Except.ok t ∧
      (t.max_purchase_prices.map (fun kv => (kv.1, kv.2.grades.map Prod.fst)) =
          [("tin_ore", ["60%", "65%", "70%", "75%"]),
           ("coltan", ["20%", "25%", "30%", "35%"]),
           ("monazite", ["30%", "40%", "45%", "50%", "60%"]),
           ("titanium", ["50%"]),
           ("zircon", ["65%"]),
           ("spodumene", ["3%", "4%", "5%", "6%"]),
           ("lepidolite", ["2.0%", "2.5%", "3.0%"]),
           ("lead_ore", ["40%", "50%", "60%"]),
           ("zinc_ore", ["40%", "50%", "60%"])] ∧
        t.source_prices.map Prod.fst =
          ["tin", "tantalum_oxide", "monazite", "titanium", "zircon",
           "spodumene", "lithium_carbonate", "lead", "zinc"]) := by
  unfold calculate_all
  refine exists_ok_bind (initCalc_ok_of_good _ h1) (fun self => ?_)
  refine exists_ok_bind (getPrice_ok_of_good _ _ _ _ h2) (fun _ => ?_)
  refine exists_ok_bind (getPrice_ok_of_good _ _ _ _ h2) (fun _ => ?_)
  refine exists_ok_bind (getPrice_ok_of_good _ _ _ _ h2) (fun _ => ?_)
  refine exists_ok_bind (getPrice_ok_of_good _ _ _ _ h2) (fun _ => ?_)
  refine exists_ok_bind (getPrice_ok_of_good _ _ _ _ h2) (fun _ => ?_)
  refine exists_ok_bind (getPrice_ok_of_good _ _ _ _ h2) (fun _ => ?_)
  refine exists_ok_bind (getPrice_ok_of_good _ _ _ _ h2) (fun _ => ?_)
  refine exists_ok_bind (getPrice_ok_of_good _ _ _ _ h2) (fun _ => ?_)
  refine exists_ok_bind (getPrice_ok_of_good _ _ _ _ h2) (fun _ => ?_)
  refine exists_ok_bind (calc_tin_ore_isOk self _ _ h2) (fun _ => ?_)
  refine exists_ok_bind (calc_tin_ore_isOk self _ _ h2) (fun _ => ?_)
  refine exists_ok_bind (calc_tin_ore_isOk self _ _ h2) (fun _ => ?_)
  refine exists_ok_bind (calc_tin_ore_isOk self _ _ h2) (fun _ => ?_)
  refine exists_ok_bind (calc_coltan_isOk self _ _ h2) (fun _ => ?_)
  refine exists_ok_bind (calc_coltan_isOk self _ _ h2) (fun _ => ?_)
  refine exists_ok_bind (calc_coltan_isOk self _ _ h2) (fun _ => ?_)
  refine exists_ok_bind (calc_coltan_isOk self _ _ h2) (fun _ => ?_)
  refine exists_ok_bind (calc_monazite_isOk self _ _ h2) (fun _ => ?_)
  refine exists_ok_bind (calc_monazite_isOk self _ _ h2) (fun _ => ?_)
  refine exists_ok_bind (calc_monazite_isOk self _ _ h2) (fun _ => ?_)
  refine exists_ok_bind (calc_monazite_isOk self _ _ h2) (fun _ => ?_)
  refine exists_ok_bind (calc_monazite_isOk self _ _ h2) (fun _ => ?_)
  refine exists_ok_bind (calc_titanium_isOk self _ h2) (fun _ => ?_)
  refine exists_ok_bind (calc_zircon_isOk self _ h2) (fun _ => ?_)
  refine exists_ok_bind (calc_spodumene_isOk self _ _ h2) (fun _ => ?_)
  refine exists_ok_bind (calc_spodumene_isOk self _ _ h2) (fun _ => ?_)
  refine exists_ok_bind (calc_spodumene_isOk self _ _ h2) (fun _ => ?_)
  refine exists_ok_bind (calc_spodumene_isOk self _ _ h2) (fun _ => ?_)
  refine exists_ok_bind (calc_lepidolite_isOk self _ _ h2) (fun _ => ?_)
  refine exists_ok_bind (calc_lepidolite_isOk self _ _ h2) (fun _ => ?_)
  refine exists_ok_bind (calc_lepidolite_isOk self _ _ h2) (fun _ => ?_)
  refine exists_ok_bind (calc_lead_ore_isOk self _ _ h2) (fun _ => ?_)
  refine exists_ok_bind (calc_lead_ore_isOk self _ _ h2) (fun _ => ?_)
  refine exists_ok_bind (calc_lead_ore_isOk self _ _ h2) (fun _ => ?_)
  refine exists_ok_bind (calc_zinc_ore_isOk self _ _ h2) (fun _ => ?_)
  refine exists_ok_bind (calc_zinc_ore_isOk self _ _ h2) (fun _ => ?_)
  refine exists_ok_bind (calc_zinc_ore_isOk self _ _ h2) (fun _ => ?_)
  exact ⟨_, rfl, rfl, rfl⟩

/-- C7 counterexample: a snapshot whose tin record stores a nested object
as its `price_avg` makes the engine raise `TypeError` (Python's `float()`
on a dict), so an exception does escape `calculate_all` on malformed
numeric values. -/
theorem calculate_all_crash_counterexample :
    calculate_all badSnapshot = Except.error PyErr.typeError := rfl

/-- C7 (amended): on snapshots whose price records hold numeric-or-null
field values and whose `usd_cny` rate entry resolves to a number,
`calculate_all` completes without an exception and produces the full
result table: all nine commodities, each at its configured grade labels,
and all nine recorded source prices. -/
theorem calculate_all_total_on_wellformed :
    ∀ s : Snapshot,
      goodRates s.exchange_rates = true → goodSmm s.smm_prices = true →
      (calculate_all s).isOk = true ∧
      tableShape (calculate_all s) =
        [("tin_ore", ["60%", "65%", "70%", "75%"]),
         ("coltan", ["20%", "25%", "30%", "35%"]),
         ("monazite", ["30%", "40%", "45%", "50%", "60%"]),
         ("titanium", ["50%"]),
         ("zircon", ["65%"]),
         ("spodumene", ["3%", "4%", "5%", "6%"]),
         ("lepidolite", ["2.0%", "2.5%", "3.0%"]),
         ("lead_ore", ["40%", "50%", "60%"]),
         ("zinc_ore", ["40%", "50%", "60%"])] ∧
      sourceKeys (calculate_all s) =
        ["tin", "tantalum_oxide", "monazite", "titanium", "zircon",
         "spodumene", "lithium_carbonate", "lead", "zinc"] := by
  intro s h1 h2
  obtain ⟨t, ht, hshape, hsrc⟩ := calculate_all_ok_aux s h1 h2
  rw [ht]
  exact ⟨rfl, by simpa [tableShape] using hshape, by simpa [sourceKeys] using hsrc⟩

/-- Witness for C7 (amended): the wellformed sample snapshot produces the
complete table. -/
theorem calculate_all_total_on_wellformed_witness :
    (calculate_all goodSnapshot).isOk = true ∧
    tableShape (calculate_all goodSnapshot) =
      [("tin_ore", ["60%", "65%", "70%", "75%"]),
       ("coltan", ["20%", "25%", "30%", "35%"]),
       ("monazite", ["30%", "40%", "45%", "50%", "60%"]),
       ("titanium", ["50%"]),
       ("zircon", ["65%"]),
       ("spodumene", ["3%", "4%", "5%", "6%"]),
       ("lepidolite", ["2.0%", "2.5%", "3.0%"]),
       ("lead_ore", ["40%", "50%", "60%"]),
       ("zinc_ore", ["40%", "50%", "60%"])] ∧
    sourceKeys (calculate_all goodSnapshot) =
      ["tin", "tantalum_oxide", "monazite", "titanium", "zircon",
       "spodumene", "lithium_carbonate", "lead", "zinc"] :=
  calculate_all_total_on_wellformed goodSnapshot rfl rfl

/-- Witness for C10: a bare-number primary record is skipped in favour of
the fallback key, and an all-bare table yields `None`. -/
theorem get_price_skips_non_mapping_witness :
    getPrice smmBareNumber "k" "price_avg" ["fb"] =
        getPriceKeys smmBareNumber "price_avg" ["fb"] ∧
    getPrice smmBareNumber "k" "price_avg" ["fb"] = Except.ok (some 7) ∧
    getPriceKeys smmAllBare "price_avg" ["a", "b"] = Except.ok none := by
  refine ⟨get_price_skips_non_mapping.1 smmBareNumber "k" "price_avg" ["fb"]
      (JVal.num 99) rfl rfl, rfl,
    get_price_skips_non_mapping.2 smmAllBare "price_avg" ["a", "b"] ?_⟩
  intro k hk
  simp only [List.mem_cons, List.not_mem_nil, or_false] at hk
  rcases hk with rfl | rfl
  · exact ⟨JVal.num 1, rfl, rfl⟩
  · exact ⟨JVal.null, rfl, rfl⟩

end KursiPrices
